import Mathlib

/-!
Verification of the rocky GDAL tile driver (src/src/rocky/GDAL.cpp).

This development shallowly embeds the tile-extraction subsystem of the
driver: the affine pixel/geographic coordinate transforms, the validity
(nodata/min/max) policy, the fragments of `GDAL::Driver::open` that select
sub-datasets, compute `maxDataLevel` and clamp geodetic bounds, and the two
tile builders `createImage` and `createHeightfield` together with their
sampling helpers (`detail::rasterIO`, `getInterpolatedDEMValue`,
`getInterpolatedDEMValueWorkspace`, `getPalleteIndexColor`).

Modelling conventions:
- C++ `double`/`float` arithmetic is modelled by exact rationals (ℚ); the
  tolerances the code uses (1e-4 and 1e-6) are explicit constants.
- C++ `int` casts truncate toward zero (`truncI`), `round` rounds half away
  from zero (`roundC`), and `unsigned char` conversions wrap mod 256.
- Calls into the external GDAL raster capability (`RasterIO`) are an oracle
  function `Env.read : ReadRequest → Option (List ℚ)`; `none` models a read
  failure (`CPLErr ≠ CE_None`), in which case the destination buffer keeps
  its previous contents, exactly as in the C++.
- Uninitialised stack buffers (`new unsigned char[..]`, local `float`s) are
  modelled by the indeterminate values `Env.junk` / `Env.junkPix8`.
- Images and heightfields are functions from (col, row) to pixel values;
  in-place writes become functional updates (`writePix` / `writeH`).
-/

namespace RockyGDAL

/-- The interpolation modes of `GDAL::Options::interpolation`. -/
inductive Interpolation where
  | NEAREST
  | AVERAGE
  | BILINEAR
  | CUBIC
  | CUBICSPLINE
deriving DecidableEq

/-- The GDAL resampling algorithms (`GDALRIOResampleAlg`) that
`detail::rasterIO` can request from the raster capability. -/
inductive ResampleAlg where
  | NearestNeighbour
  | Bilinear
  | Cubic
  | CubicSpline
  | Average
deriving DecidableEq

/-- GDAL sample data types (`GDALDataType`) that matter to the driver. -/
inductive DataType where
  | Byte
  | UInt16
  | Int16
  | UInt32
  | Int32
  | Float32
  | Float64
  | Other
deriving DecidableEq

/-- GDAL color interpretations (`GDALColorInterp`) the driver looks for. -/
inductive ColorInterp where
  | Red
  | Green
  | Blue
  | Alpha
  | Gray
  | Palette
  | Undefined
deriving DecidableEq

/-- GDAL palette interpretations (`GDALPaletteInterp`). -/
inductive PaletteInterp where
  | RGB
  | CMYK
  | HLS
  | GrayP
  | Other
deriving DecidableEq

/-- A GDAL color-table entry (`GDALColorEntry`, four shorts). -/
structure ColorEntry where
  c1 : ℤ
  c2 : ℤ
  c3 : ℤ
  c4 : ℤ
deriving DecidableEq

/-- Per-band metadata as queried from the raster capability
(`GetColorInterpretation`, `GetRasterDataType`, `GetNoDataValue`,
`GetScale`, `GetOffset`, `GetColorTable`). The color table maps an index to
an optional entry; `none` models `GetColorEntry` returning null. -/
structure Band where
  colorInterp : ColorInterp
  dataType : DataType
  noData : Option ℚ
  scale : ℚ
  offset : ℚ
  colorTable : List (Option ColorEntry)
  paletteInterp : PaletteInterp

/-- The (possibly warped) dataset `_warpedDS`: raster dimensions and bands. -/
structure Dataset where
  rasterWidth : ℤ
  rasterHeight : ℤ
  bands : List Band

/-- An axis-aligned geographic box (rocky `Box` / `GeoExtent` bounds). -/
structure Box where
  xmin : ℚ
  ymin : ℚ
  xmax : ℚ
  ymax : ℚ
deriving DecidableEq

def Box.width (b : Box) : ℚ := b.xmax - b.xmin

def Box.height (b : Box) : ℚ := b.ymax - b.ymin

/-- Modelled from the spec: a computed intersection extent is "empty"
(invalid) unless it has positive width and height; the rocky
`GeoExtent::valid` helper is not under src/. -/
def Box.valid (b : Box) : Bool := decide (b.xmin < b.xmax) && decide (b.ymin < b.ymax)

/-- Modelled from the spec: `GeoExtent::intersectionSameSRS` ("compute the
geometric intersection of the tile extent and the dataset extent in the
same SRS"); the rocky GeoExtent type is not under src/. -/
def intersectionSameSRS (a b : Box) : Box :=
  ⟨max a.xmin b.xmin, max a.ymin b.ymin, min a.xmax b.xmax, min a.ymax b.ymax⟩

/-- A tile key: level plus the geographic extent its profile derives. -/
structure TileKey where
  level : ℕ
  extent : Box

/-- The 6-parameter affine geotransform (`double _geotransform[6]`). -/
structure GT where
  g0 : ℚ
  g1 : ℚ
  g2 : ℚ
  g3 : ℚ
  g4 : ℚ
  g5 : ℚ
deriving DecidableEq

/-- Determinant of the linear part of a geotransform. -/
def GT.det (g : GT) : ℚ := g.g1 * g.g5 - g.g2 * g.g4

/-- The immutable post-open driver state (`GDAL::Driver` fields plus the
layer options it consults): geotransform and its inverse, the warped
dataset, `_bounds` (longitude frame of the georeferencing), `_extents`
(possibly clamped reporting extent), pixel convention, linear units,
`maxDataLevel` and the layer interpolation/validity configuration. -/
structure Driver where
  geotransform : GT
  invtransform : GT
  ds : Dataset
  bounds : Box
  extents : Box
  extentsGeodetic : Bool
  pixelIsArea : Bool
  linearUnits : ℚ
  maxDataLevel : Option ℕ
  interpolation : Interpolation
  noDataValue : Option ℚ
  minValidValue : Option ℚ
  maxValidValue : Option ℚ

/-- A windowed read request handed to the external raster capability:
band, integer source window, buffer size, buffer sample type, resampling
algorithm, and (for `detail::rasterIO`) the floating-point source window
passed through `GDALRasterIOExtraArg`. -/
structure ReadRequest where
  band : ℕ
  xOff : ℤ
  yOff : ℤ
  xSize : ℤ
  ySize : ℤ
  bufX : ℤ
  bufY : ℤ
  dataType : DataType
  alg : ResampleAlg
  floatWindow : Option (ℚ × ℚ × ℚ × ℚ)
deriving DecidableEq

/-- An RGBA pixel with rational channels (`glm::fvec4`). -/
structure Pix where
  r : ℚ
  g : ℚ
  b : ℚ
  a : ℚ
deriving DecidableEq

/-- An RGBA pixel with integer channels (`glm::u8vec4`). -/
structure Pix8 where
  r : ℤ
  g : ℤ
  b : ℤ
  a : ℤ
deriving DecidableEq

/-- The external raster-read oracle plus indeterminate values standing for
uninitialised C++ stack memory. -/
structure Env where
  read : ReadRequest → Option (List ℚ)
  junk : ℚ
  junkPix8 : Pix8

/-- The error taxonomy of `Status` (messages elided). -/
inductive StatusCode where
  | ConfigurationError
  | ResourceUnavailable
  | GeneralError
deriving DecidableEq

/-- An image tile: pixel value at (col, row). -/
abbrev Image := ℤ → ℤ → Pix

/-- A heightfield tile: sample value at (col, row). -/
abbrev Heightfield := ℤ → ℤ → ℚ

/-- Is an image-tile result a success? -/
def imageOk : Except StatusCode Image → Bool
  | .ok _ => true
  | .error _ => false

/-- Is a heightfield result a success? -/
def heightfieldOk : Except StatusCode Heightfield → Bool
  | .ok _ => true
  | .error _ => false

/-! ## Numeric helpers -/

/-- C++ `(int)` cast of a floating value: truncation toward zero. -/
def truncI (q : ℚ) : ℤ := if 0 ≤ q then ⌊q⌋ else ⌈q⌉

/-- C++ `round`: round half away from zero. -/
def roundC (q : ℚ) : ℤ := if 0 ≤ q then ⌊q + 1/2⌋ else ⌈q - 1/2⌉

/-- C++ conversion to `unsigned char`: wrap mod 256. -/
def castU8 (z : ℤ) : ℤ := z % 256

/-- The `clamp` helper on rationals. -/
def clampQ (v lo hi : ℚ) : ℚ := max lo (min v hi)

/-- The `clamp` helper on integers. -/
def clampI (v lo hi : ℤ) : ℤ := max lo (min v hi)

/-- The boundary-snapping tolerance of `geoToPixel` (1e-4). -/
def epsQ : ℚ := 1/10000

/-- The floating-point fudge factor of the heightfield point path (1e-6). -/
def epsBuf : ℚ := 1/1000000

/-- Modelled from the spec: `NO_DATA_VALUE`, the documented nodata sentinel
constant for elevation data (the lowest finite 32-bit float); it comes from
ElevationLayer.h, which is not under src/. -/
def NO_DATA_VALUE : ℚ := -(2^128 - 2^104)

/-- Modelled from the spec: the rocky `equiv(a, b, eps)` helper ("snaps
results within 1e-4 of 0 or of the raster width/height"); its definition
is not under src/. It holds when the two values differ by at most eps. -/
def equiv (a b eps : ℚ) : Bool := decide (|a - b| ≤ eps)

/-- The truncating cast `applyScaleAndOffset` performs when writing scaled
samples back into a typed buffer (`static_cast<T>`); exact for the two
floating buffer types. -/
def castOfType (dt : DataType) (v : ℚ) : ℚ :=
  match dt with
  | .Float32 => v
  | .Float64 => v
  | _ => (truncI v : ℚ)

/-! ## Coordinate transforms (GDAL.cpp lines 699-718) -/

/-- Embeds `GDAL::Driver::pixelToGeo`: apply the affine geotransform. -/
def pixelToGeo (d : Driver) (x y : ℚ) : ℚ × ℚ :=
  (d.geotransform.g0 + d.geotransform.g1 * x + d.geotransform.g2 * y,
   d.geotransform.g3 + d.geotransform.g4 * x + d.geotransform.g5 * y)

/-- The two sequential edge snaps `geoToPixel` applies to one coordinate:
first snap values within eps of 0 to 0, then values within eps of the
raster dimension to that dimension. -/
def snapPipe (v size : ℚ) : ℚ :=
  let v1 := if equiv v 0 epsQ then 0 else v
  if equiv v1 size epsQ then size else v1

/-- Embeds `GDAL::Driver::geoToPixel`: apply the precomputed inverse transform,
then snap each coordinate to the raster edges (the source performs the four
snap checks in the order x-0, y-0, x-width, y-height; the checks for the
two axes are independent, so they are grouped per axis here). -/
def geoToPixel (d : Driver) (geoX geoY : ℚ) : ℚ × ℚ :=
  let x := d.invtransform.g0 + d.invtransform.g1 * geoX + d.invtransform.g2 * geoY
  let y := d.invtransform.g3 + d.invtransform.g4 * geoX + d.invtransform.g5 * geoY
  (snapPipe x (d.ds.rasterWidth : ℚ), snapPipe y (d.ds.rasterHeight : ℚ))

/-- Modelled from the spec: `GDALInvGeoTransform` (external GDAL), which
`open` uses to compute `_invtransform`; "Invert the (possibly warped)
geotransform; fail if singular". -/
def invGeoTransform (g : GT) : Option GT :=
  if g.det = 0 then none
  else
    some ⟨(g.g2 * g.g3 - g.g0 * g.g5) / g.det, g.g5 / g.det, -g.g2 / g.det,
          (-(g.g1) * g.g3 + g.g0 * g.g4) / g.det, -g.g4 / g.det, g.g1 / g.det⟩

/-! ## Validity policy (GDAL.cpp lines 720-780) -/

/-- Is `v` below the caller-configured minimum valid value? -/
def belowMinValid (d : Driver) (v : ℚ) : Bool :=
  match d.minValidValue with
  | some m => decide (v < m)
  | none => false

/-- Is `v` above the caller-configured maximum valid value? -/
def aboveMaxValid (d : Driver) (v : ℚ) : Bool :=
  match d.maxValidValue with
  | some m => decide (m < v)
  | none => false

/-- Does `v` equal the caller-configured override nodata value? -/
def userNoDataEq (d : Driver) (v : ℚ) : Bool :=
  match d.noDataValue with
  | some nd => decide (nd = v)
  | none => false

/-- The declared band nodata value, or the given fallback when the band
declares none (`GetNoDataValue` and its success flag). -/
def bandNoDataOr (band : Band) (fallback : ℚ) : ℚ :=
  match band.noData with
  | some nd => nd
  | none => fallback

/-- Embeds `GDAL::Driver::isValidValue(float, GDALRasterBand*)`: band nodata
(fallback -32767), override nodata, then the min/max clamps. -/
def isValidValue (d : Driver) (v : ℚ) (band : Band) : Bool :=
  if bandNoDataOr band (-32767) = v then false
  else if userNoDataEq d v then false
  else if belowMinValid d v then false
  else if aboveMaxValid d v then false
  else true

/-- Embeds `GDAL::Driver::isValidValue(float, float)`: given nodata value and the
min/max clamps (this overload skips the override nodata). -/
def isValidValueND (d : Driver) (v noDataVal : ℚ) : Bool :=
  if noDataVal = v then false
  else if belowMinValid d v then false
  else if aboveMaxValid d v then false
  else true

/-- Embeds `GDAL::Driver::getValidElevationValue`: replace invalid elevations. -/
def getValidElevationValue (d : Driver) (v noDataValueFromBand replacement : ℚ) : ℚ :=
  if userNoDataEq d v || decide (noDataValueFromBand = v) then replacement
  else if belowMinValid d v then replacement
  else if aboveMaxValid d v then replacement
  else v

/-! ## detail::rasterIO (GDAL.cpp lines 148-222) -/

/-- The `switch (interpolation)` in `detail::rasterIO` that picks the GDAL
resampling algorithm; AVERAGE is deliberately mapped to bilinear (the
source comments that GDAL average resampling produced artifacts), and
NEAREST keeps the `INIT_RASTERIO_EXTRA_ARG` default. -/
def resampleAlgOf : Interpolation → ResampleAlg
  | .AVERAGE => .Bilinear
  | .BILINEAR => .Bilinear
  | .CUBIC => .Cubic
  | .CUBICSPLINE => .CubicSpline
  | .NEAREST => .NearestNeighbour

/-- A band with no useful metadata, standing for an out-of-range
`GetRasterBand` access. -/
def defaultBand : Band := ⟨.Undefined, .Float32, none, 1, 0, [], .Other⟩

/-- The i-th (0-based) band of the dataset. -/
def bandAt (ds : Dataset) (i : ℕ) : Band := ds.bands.getD i defaultBand

/-- Embeds `detail::findBandByColorInterp`: index of the first band whose color
interpretation matches (0-based; the C++ scan is 1-based). -/
def findBandByColorInterp (ds : Dataset) (ci : ColorInterp) : Option ℕ :=
  ds.bands.findIdx? (fun b => decide (b.colorInterp = ci))

/-- Embeds `detail::rasterIO`: build the read request (truncated integer offsets,
ceiled integer sizes, floating window, resampling algorithm) and hand it to
the oracle. On failure the destination buffer is unchanged and the call
reports false; on success the declared band scale/offset values are applied to
the whole buffer when nontrivial (`applyScaleAndOffset`). -/
def rasterIOModel (env : Env) (bandIdx : ℕ) (band : Band)
    (nXOff nYOff nXSize nYSize : ℚ) (buf : List ℚ) (nBufX nBufY : ℤ)
    (eBufType : DataType) (interpolation : Interpolation) : Bool × List ℚ :=
  let req : ReadRequest :=
    ⟨bandIdx, truncI nXOff, truncI nYOff, ⌈nXSize⌉, ⌈nYSize⌉, nBufX, nBufY, eBufType,
     resampleAlgOf interpolation, some (nXOff, nYOff, nXSize, nYSize)⟩
  match env.read req with
  | none => (false, buf)
  | some out =>
      let out :=
        if band.scale ≠ 1 ∨ band.offset ≠ 0 then
          out.map (fun v => castOfType eBufType (v * band.scale + band.offset))
        else out
      (true, out)

/-! ## open-time fragments (GDAL.cpp lines 442-456, 604-628, 640-672) -/

/-- The sub-dataset selection of `open` (lines 445-455): take the
configured index (default 1 when not configured); an index outside
[1, numSubDatasets] is replaced by 1. -/
def selectSubDataset (configured : Option ℤ) (numSubDatasets : ℤ) : ℤ :=
  let subDataset := match configured with | some v => v | none => 1
  if subDataset < 1 ∨ subDataset > numSubDatasets then 1 else subDataset

/-- The `while (w >= maxResolution && h >= maxResolution)` loop of `open`
(lines 619-623), counting how many times the level is incremented. The C++
loop needs no fuel because `w` halves on every iteration; the fuel below is
chosen large enough to cover every iteration the C++ loop performs. -/
def maxLevelLoop : ℕ → ℚ → ℚ → ℚ → ℕ
  | 0, _, _, _ => 0
  | fuel + 1, w, h, maxResolution =>
      if maxResolution ≤ w ∧ maxResolution ≤ h then
        maxLevelLoop fuel (w / 2) (h / 2) maxResolution + 1
      else 0

/-- Fuel that dominates the iteration count of `maxLevelLoop`: after this
many halvings `w` has dropped below `maxResolution` (for positive
`maxResolution`). -/
def levelFuel (w maxResolution : ℚ) : ℕ := (⌈w / maxResolution⌉).toNat + 1

/-- The `maxDataLevel` computation of `open` (lines 604-628): keep a
pre-configured value; otherwise, for positive resolution, run the halving
loop on the level-0 tile dimensions divided by the tile size; otherwise
set level 1. -/
def computeMaxDataLevel (pre : Option ℕ) (w0 h0 tileSize resolutionX resolutionY : ℚ) : ℕ :=
  let maxResolution := min resolutionX resolutionY
  match pre with
  | some m => m
  | none =>
      if 0 < maxResolution then
        maxLevelLoop (levelFuel (w0 / tileSize) maxResolution)
          (w0 / tileSize) (h0 / tileSize) maxResolution
      else 1

/-- The geodetic extent clamping of `open` (lines 643-671): for an
area-convention dataset whose x-bounds leave [-180, 180], shrink by half a
source pixel; if the x-span still exceeds 360, hard-clamp to [-180, 180]
and set the clamped flag; then the same for y against [-90, 90] and 180.
Returns the adjusted bounds and the clamped flag. -/
def clampGeodeticBounds (b : Box) (resolutionX resolutionY : ℚ)
    (isArea srsGeodetic : Bool) : Box × Bool :=
  if srsGeodetic then
    let b1 :=
      if isArea ∧ (b.xmin < -180 ∨ b.xmax > 180) then
        { b with xmin := b.xmin + resolutionX * (1/2), xmax := b.xmax - resolutionX * (1/2) }
      else b
    let p2 :=
      if b1.xmax - b1.xmin > 360 then ({ b1 with xmin := -180, xmax := 180 }, true)
      else (b1, false)
    let b2 := p2.1
    let b3 :=
      if isArea ∧ (b2.ymin < -90 ∨ b2.ymax > 90) then
        { b2 with ymin := b2.ymin + resolutionY * (1/2), ymax := b2.ymax - resolutionY * (1/2) }
      else b2
    if b3.ymax - b3.ymin > 180 then ({ b3 with ymin := -90, ymax := 90 }, true)
    else (b3, p2.2)
  else (b, false)

/-! ## Palette colors (GDAL.cpp lines 32-134) -/

/-- Embeds `detail::Hue_2_RGB` (from easyrgb.com). -/
def Hue_2_RGB (v1 v2 vH : ℚ) : ℚ :=
  let vH := if vH < 0 then vH + 1 else vH
  let vH := if vH > 1 then vH - 1 else vH
  if 6 * vH < 1 then v1 + (v2 - v1) * 6 * vH
  else if 2 * vH < 1 then v2
  else if 3 * vH < 2 then v1 + (v2 - v1) * (2/3 - vH) * 6
  else v1

/-- Embeds `detail::getPalleteIndexColor`: resolve a palette index through the
color table of the band. A missing entry produces (255, 0, 0, 1) and reports
false; otherwise the entry is interpreted as RGB, CMYK, HLS or grayscale;
an unknown palette interpretation reports false leaving the (uninitialised)
color untouched. -/
def getPalleteIndexColor (band : Band) (index : ℕ) (color : Pix8) : Bool × Pix8 :=
  match band.colorTable.getD index none with
  | none => (false, ⟨255, 0, 0, 1⟩)
  | some entry =>
      match band.paletteInterp with
      | .RGB => (true, ⟨castU8 entry.c1, castU8 entry.c2, castU8 entry.c3, castU8 entry.c4⟩)
      | .CMYK =>
          (true, ⟨castU8 (255 - entry.c1 * (255 - entry.c4) - entry.c4),
                  castU8 (255 - entry.c2 * (255 - entry.c4) - entry.c4),
                  castU8 (255 - entry.c3 * (255 - entry.c4) - entry.c4), 255⟩)
      | .HLS =>
          let H : ℚ := entry.c1
          let S : ℚ := entry.c3
          let L : ℚ := entry.c2
          let rgb : ℚ × ℚ × ℚ :=
            if S = 0 then (L, L, L)
            else
              let var2 := if L < 1/2 then L * (1 + S) else (L + S) - S * L
              let var1 := 2 * L - var2
              (Hue_2_RGB var1 var2 (H + 1/3), Hue_2_RGB var1 var2 H,
               Hue_2_RGB var1 var2 (H - 1/3))
          (true, ⟨castU8 (truncI (rgb.1 * 255)), castU8 (truncI (rgb.2.1 * 255)),
                  castU8 (truncI (rgb.2.2 * 255)), 255⟩)
      | .GrayP =>
          (true, ⟨castU8 (truncI ((entry.c1 : ℚ) * 255)), castU8 (truncI ((entry.c1 : ℚ) * 255)),
                  castU8 (truncI ((entry.c1 : ℚ) * 255)), 255⟩)
      | .Other => (false, color)

/-- The per-pixel palette step of `createImage` (lines 1136-1150): resolve
the index; when resolution reports false, or the red channel fails the
validity policy, force alpha to 0; normalise to [0, 1]. -/
def palettePixel (d : Driver) (band : Band) (p : ℕ) (init : Pix8) : Pix :=
  let res := getPalleteIndexColor band p init
  let color :=
    if res.1 = false then { res.2 with a := 0 }
    else if isValidValue d (res.2.r : ℚ) band = false then { res.2 with a := 0 }
    else res.2
  ⟨(color.r : ℚ) / 255, (color.g : ℚ) / 255, (color.b : ℚ) / 255, (color.a : ℚ) / 255⟩

/-! ## Image construction -/

/-- Functional update standing for `image->write(c, col, row)`. -/
def writePix (img : Image) (x y : ℤ) (p : Pix) : Image :=
  fun a b => if a = x ∧ b = y then p else img a b

/-- Functional update standing for `hf->heightAt(col, row) = h`. -/
def writeH (hf : Heightfield) (x y : ℤ) (h : ℚ) : Heightfield :=
  fun a b => if a = x ∧ b = y then h else hf a b

/-- The compositing double loop shared by every `createImage` band path:
for each source row/col of the destination window, write the pixel derived
from buffer index `i = src_col + src_row * target_width` at destination
column `tile_offset_left + src_col` and vertically flipped row
`tileSize - (tile_offset_top + src_row) - 1`. -/
def compositeLoop (tileSize : ℕ) (target_width target_height tile_offset_left tile_offset_top : ℤ)
    (f : ℕ → Pix) (img0 : Image) : Image :=
  (List.range target_height.toNat).foldl (fun img (src_row : ℕ) =>
    (List.range target_width.toNat).foldl (fun img (src_col : ℕ) =>
      writePix img (tile_offset_left + (src_col : ℤ))
        ((tileSize : ℤ) - (tile_offset_top + (src_row : ℤ)) - 1)
        (f (src_col + src_row * target_width.toNat))) img) img0

/-- Embeds `maxDataLevel.has_value() && key.level > maxDataLevel`. -/
def levelExceeded (d : Driver) (key : TileKey) : Bool :=
  match d.maxDataLevel with
  | some m => decide (m < key.level)
  | none => false

/-- Embeds `GDAL::Driver::createImage` after the early-out checks (GDAL.cpp lines
805-1169): window planning, band resolution with the band-count fallback,
and the RGB / gray / palette compositing paths. -/
def createImageBody (d : Driver) (env : Env) (key : TileKey) (tileSize : ℕ) :
    Except StatusCode Image :=
  let T : ℚ := tileSize
  let ext := key.extent
  let intersection := intersectionSameSRS ext d.extents
  -- re-wrap the intersection into the dataset longitude frame (closed form
  -- of the two `while` loops shifting west by ±360 until it falls within
  -- `_bounds`; east follows the final west whenever a shift occurred)
  let west0 := intersection.xmin
  let east0 := intersection.xmax
  let we :=
    if d.extentsGeodetic then
      let w1 := west0 + 360 * max 0 ⌈(d.bounds.xmin - west0) / 360⌉
      let w2 := w1 - 360 * max 0 ⌈(w1 - d.bounds.xmax) / 360⌉
      (w2, if w2 = west0 then east0 else w2 + (intersection.xmax - intersection.xmin))
    else (west0, east0)
  let west := we.1
  let east := we.2
  let pmin := geoToPixel d west intersection.ymax
  let pmax := geoToPixel d east intersection.ymin
  let src_min_x := pmin.1
  let src_min_y := pmin.2
  let src_width0 := pmax.1 - src_min_x
  let src_height0 := pmax.2 - src_min_y
  let rasterWidth : ℚ := d.ds.rasterWidth
  let rasterHeight : ℚ := d.ds.rasterHeight
  let src_width := if src_min_x + src_width0 > rasterWidth then rasterWidth - src_min_x else src_width0
  let src_height := if src_min_y + src_height0 > rasterHeight then rasterHeight - src_min_y else src_height0
  let offset_left := intersection.xmin - ext.xmin
  let offset_top := ext.ymax - intersection.ymax
  let target_width : ℤ := ⌈(intersection.width / ext.width) * T⌉
  let target_height : ℤ := ⌈(intersection.height / ext.height) * T⌉
  let tile_offset_left : ℤ := ⌊(offset_left / ext.width) * T⌋
  let tile_offset_top : ℤ := ⌊(offset_top / ext.height) * T⌋
  if src_width ≤ 0 ∨ src_height ≤ 0 ∨ target_width ≤ 0 ∨ target_height ≤ 0 then
    .error .ResourceUnavailable
  else
    -- band resolution by color interpretation, with the band-count
    -- fallback (3→RGB, 4→RGBA, 1→gray, 2→gray+alpha) when nothing matched
    let fr := findBandByColorInterp d.ds .Red
    let fg := findBandByColorInterp d.ds .Green
    let fb := findBandByColorInterp d.ds .Blue
    let fa := findBandByColorInterp d.ds .Alpha
    let fm := findBandByColorInterp d.ds .Gray
    let fp := findBandByColorInterp d.ds .Palette
    let nb := d.ds.bands.length
    let useFallback := fr.isNone && fg.isNone && fb.isNone && fa.isNone && fm.isNone && fp.isNone
    let bandRed := if useFallback then (if nb = 3 ∨ nb = 4 then some 0 else none) else fr
    let bandGreen := if useFallback then (if nb = 3 ∨ nb = 4 then some 1 else none) else fg
    let bandBlue := if useFallback then (if nb = 3 ∨ nb = 4 then some 2 else none) else fb
    let bandAlpha := if useFallback then (if nb = 4 then some 3 else if nb = 2 then some 1 else none) else fa
    let bandGray := if useFallback then (if nb = 1 ∨ nb = 2 then some 0 else none) else fm
    let bandPalette := fp
    let n := (target_width * target_height).toNat
    match bandRed, bandGreen, bandBlue with
    | some ir, some ig, some ib =>
        -- RGB(A) path
        let bR := bandAt d.ds ir
        let bG := bandAt d.ds ig
        let bB := bandAt d.ds ib
        let red := (rasterIOModel env ir bR src_min_x src_min_y src_width src_height
          (List.replicate n env.junk) target_width target_height .Byte d.interpolation).2
        let green := (rasterIOModel env ig bG src_min_x src_min_y src_width src_height
          (List.replicate n env.junk) target_width target_height .Byte d.interpolation).2
        let blue := (rasterIOModel env ib bB src_min_x src_min_y src_width src_height
          (List.replicate n env.junk) target_width target_height .Byte d.interpolation).2
        let alpha :=
          match bandAlpha with
          | some ia => (rasterIOModel env ia (bandAt d.ds ia) src_min_x src_min_y src_width
              src_height (List.replicate n 255) target_width target_height .Byte d.interpolation).2
          | none => List.replicate n (255 : ℚ)
        let img0 : Image := fun _ _ => ⟨0, 0, 0, 0⟩
        .ok (compositeLoop tileSize target_width target_height tile_offset_left tile_offset_top
          (fun i =>
            let c : Pix := ⟨red.getD i 0 / 255, green.getD i 0 / 255, blue.getD i 0 / 255,
                            alpha.getD i 0 / 255⟩
            if !(isValidValue d c.r bR) || !(isValidValue d c.g bG) || !(isValidValue d c.b bB)
               || (bandAlpha.isSome && !(isValidValue d c.a (bandAt d.ds (bandAlpha.getD 0)))) then
              { c with a := 0 }
            else c) img0)
    | _, _, _ =>
        match bandGray with
        | some im =>
            let bM := bandAt d.ds im
            let isElevation := bM.dataType = .Int16 ∨ bM.dataType = .UInt16 ∨ bM.dataType = .Float32
            if isElevation then
              let img0 : Image := fun _ _ => ⟨NO_DATA_VALUE, 0, 0, 0⟩
              if bM.dataType = .Int16 then
                let temp := (rasterIOModel env im bM src_min_x src_min_y src_width src_height
                  (List.replicate n env.junk) target_width target_height .Int16 d.interpolation).2
                let ndb : ℚ := match bM.noData with | some v => (truncI v : ℚ) | none => -32767
                .ok (compositeLoop tileSize target_width target_height tile_offset_left
                  tile_offset_top
                  (fun i => ⟨getValidElevationValue d (temp.getD i 0) ndb NO_DATA_VALUE, 0, 0, 0⟩)
                  img0)
              else
                let temp := (rasterIOModel env im bM src_min_x src_min_y src_width src_height
                  (List.replicate n env.junk) target_width target_height bM.dataType
                  d.interpolation).2
                let ndb : ℚ := match bM.noData with | some v => v | none => NO_DATA_VALUE
                .ok (compositeLoop tileSize target_width target_height tile_offset_left
                  tile_offset_top
                  (fun i => ⟨getValidElevationValue d (temp.getD i 0) ndb NO_DATA_VALUE, 0, 0, 0⟩)
                  img0)
            else
              -- gray (+ alpha) color path
              let img0 : Image := fun _ _ => ⟨0, 0, 0, 0⟩
              let gray := (rasterIOModel env im bM src_min_x src_min_y src_width src_height
                (List.replicate n env.junk) target_width target_height .Byte d.interpolation).2
              let alphaOpt :=
                match bandAlpha with
                | some ia => some ((rasterIOModel env ia (bandAt d.ds ia) src_min_x src_min_y
                    src_width src_height (List.replicate n 255) target_width target_height .Byte
                    d.interpolation).2)
                | none => none
              .ok (compositeLoop tileSize target_width target_height tile_offset_left
                tile_offset_top
                (fun i =>
                  let g := gray.getD i 0
                  let a : ℚ := match alphaOpt with | some alpha => alpha.getD i 0 | none => 255
                  let c : Pix := ⟨g, g, g, a⟩
                  let c :=
                    if !(isValidValue d c.r bM)
                       || (bandAlpha.isSome && !(isValidValue d c.a (bandAt d.ds (bandAlpha.getD 0)))) then
                      { c with a := 0 }
                    else c
                  ⟨c.r / 255, c.g / 255, c.b / 255, c.a / 255⟩) img0)
        | none =>
            match bandPalette with
            | some ip =>
                -- palette path: always NEAREST resampling
                let bP := bandAt d.ds ip
                let palette := (rasterIOModel env ip bP src_min_x src_min_y src_width src_height
                  (List.replicate n env.junk) target_width target_height .Byte .NEAREST).2
                let img0 : Image := fun _ _ => ⟨0, 0, 0, 0⟩
                .ok (compositeLoop tileSize target_width target_height tile_offset_left
                  tile_offset_top
                  (fun i => palettePixel d bP ((truncI (palette.getD i 0)).toNat) env.junkPix8)
                  img0)
            | none => .error .ResourceUnavailable

/-- Embeds `GDAL::Driver::createImage` (GDAL.cpp lines 788-1170): the early
`ResourceUnavailable` exits (level beyond `maxDataLevel`, cancelled
request, empty intersection with the dataset extent) followed by the
window/compositing body. -/
def createImage (d : Driver) (env : Env) (key : TileKey) (tileSize : ℕ) (canceled : Bool) :
    Except StatusCode Image :=
  if levelExceeded d key then .error .ResourceUnavailable
  else if canceled then .error .ResourceUnavailable
  else if !(intersectionSameSRS key.extent d.extents).valid then .error .ResourceUnavailable
  else createImageBody d env key tileSize

/-! ## Heightfield sampling (GDAL.cpp lines 1172-1574) -/

/-- Embeds `GDAL::Driver::getInterpolatedDEMValueWorkspace` (lines 1213-1294):
sample the thread-local workspace at unit coordinates (u, v); nearest picks
one clamped sample, otherwise the four nearest samples are combined with
average or bilinear corner weights; any invalid sample yields the nodata
sentinel. -/
def getInterpolatedDEMValueWorkspace (d : Driver) (band : Band) (u v : ℚ)
    (data : List ℚ) (width height : ℤ) : ℚ :=
  let noDataValue := bandNoDataOr band (-32767)
  let c := clampQ u 0 1 * (width : ℚ)
  let r := clampQ v 0 1 * (height : ℚ)
  if d.interpolation = .NEAREST then
    let x := truncI (clampQ c 0 ((width : ℚ) - 1))
    let y := truncI (clampQ r 0 ((height : ℚ) - 1))
    let result := data.getD (y * width + x).toNat 0
    if !(isValidValueND d result noDataValue) then NO_DATA_VALUE else result
  else
    let col_min := clampI ⌊c⌋ 0 (width - 1)
    let col_max := clampI ⌈c⌉ 0 (width - 1)
    let row_min := clampI ⌊r⌋ 0 (height - 1)
    let row_max := clampI ⌈r⌉ 0 (height - 1)
    let nw := data.getD (row_min * width + col_min).toNat 0
    let ne := data.getD (row_min * width + col_max).toNat 0
    let sw := data.getD (row_max * width + col_min).toNat 0
    let se := data.getD (row_max * width + col_max).toNat 0
    if !(isValidValueND d nw noDataValue) || !(isValidValueND d ne noDataValue)
       || !(isValidValueND d sw noDataValue) || !(isValidValueND d se noDataValue) then
      NO_DATA_VALUE
    else
      let west_weight := clampQ ((col_max : ℚ) + 1/2 - c) 0 1
      let south_weight := clampQ ((row_max : ℚ) + 1/2 - r) 0 1
      if d.interpolation = .AVERAGE then
        west_weight * south_weight * sw + west_weight * (1 - south_weight) * nw
          + (1 - west_weight) * south_weight * se + (1 - west_weight) * (1 - south_weight) * ne
      else
        south_weight * (west_weight * sw + (1 - west_weight) * se)
          + (1 - south_weight) * (west_weight * nw + (1 - west_weight) * ne)

/-- Embeds `GDAL::Driver::getInterpolatedDEMValue` (lines 1296-1442), as compiled
against pre-3.10 GDAL (no `InterpolateAtPoint` fast path): map the
geographic point to pixel space, apply the half-pixel area-convention
correction with edge clamping, return the sentinel outside the raster, and
sample with one nearest read or four individual corner reads. The corner
reads go through `detail::rasterIO` with its default NEAREST resampling,
and their return status is ignored — on failure the uninitialised
destination floats keep their indeterminate (`Env.junk`) contents (the
destination of the nearest path is initialised to 0). -/
def getInterpolatedDEMValue (d : Driver) (env : Env) (bandIdx : ℕ) (band : Band)
    (x y : ℚ) (applyOffset : Bool) : ℚ :=
  let p := geoToPixel d x y
  let W : ℚ := d.ds.rasterWidth
  let H : ℚ := d.ds.rasterHeight
  let cr :=
    if applyOffset then
      let c := p.1 - 1/2
      let r := p.2 - 1/2
      let c :=
        if c < 0 ∧ -(1/2) ≤ c then 0
        else if c > W - 1 ∧ c ≤ W - 1/2 then W - 1
        else c
      let r :=
        if r < 0 ∧ -(1/2) ≤ r then 0
        else if r > H - 1 ∧ r ≤ H - 1/2 then H - 1
        else r
      (c, r)
    else (p.1, p.2)
  let c := cr.1
  let r := cr.2
  if c < 0 ∨ r < 0 ∨ c > W - 1 ∨ r > H - 1 then NO_DATA_VALUE
  else if d.interpolation = .NEAREST then
    let result := ((rasterIOModel env bandIdx band ((roundC c : ℤ) : ℚ) ((roundC r : ℤ) : ℚ)
      1 1 [0] 1 1 .Float32 .NEAREST).2).getD 0 0
    if !(isValidValue d result band) then NO_DATA_VALUE else result
  else
    let rowMin0 := max ⌊r⌋ 0
    let rowMax := max (min ⌈r⌉ (d.ds.rasterHeight - 1)) 0
    let colMin0 := max ⌊c⌋ 0
    let colMax := max (min ⌈c⌉ (d.ds.rasterWidth - 1)) 0
    let rowMin := if rowMin0 > rowMax then rowMax else rowMin0
    let colMin := if colMin0 > colMax then colMax else colMin0
    let llHeight := ((rasterIOModel env bandIdx band (colMin : ℚ) (rowMin : ℚ)
      1 1 [env.junk] 1 1 .Float32 .NEAREST).2).getD 0 0
    let ulHeight := ((rasterIOModel env bandIdx band (colMin : ℚ) (rowMax : ℚ)
      1 1 [env.junk] 1 1 .Float32 .NEAREST).2).getD 0 0
    let lrHeight := ((rasterIOModel env bandIdx band (colMax : ℚ) (rowMin : ℚ)
      1 1 [env.junk] 1 1 .Float32 .NEAREST).2).getD 0 0
    let urHeight := ((rasterIOModel env bandIdx band (colMax : ℚ) (rowMax : ℚ)
      1 1 [env.junk] 1 1 .Float32 .NEAREST).2).getD 0 0
    if !(isValidValue d urHeight band) || !(isValidValue d llHeight band)
       || !(isValidValue d ulHeight band) || !(isValidValue d lrHeight band) then
      NO_DATA_VALUE
    else if d.interpolation = .AVERAGE then
      let x_rem := c - (truncI c : ℚ)
      let y_rem := r - (truncI r : ℚ)
      (1 - y_rem) * (1 - x_rem) * llHeight + (1 - y_rem) * x_rem * lrHeight
        + y_rem * (1 - x_rem) * ulHeight + y_rem * x_rem * urHeight
    else if d.interpolation = .BILINEAR then
      if colMax = colMin ∧ rowMax = rowMin then llHeight
      else if colMax = colMin then
        ((rowMax : ℚ) - r) * llHeight + (r - (rowMin : ℚ)) * ulHeight
      else if rowMax = rowMin then
        ((colMax : ℚ) - c) * llHeight + (c - (colMin : ℚ)) * lrHeight
      else
        let r1 := ((colMax : ℚ) - c) * llHeight + (c - (colMin : ℚ)) * lrHeight
        let r2 := ((colMax : ℚ) - c) * ulHeight + (c - (colMin : ℚ)) * urHeight
        ((rowMax : ℚ) - r) * r1 + (r - (rowMin : ℚ)) * r2
    else 0

/-- The pixel window of the point-convention path (lines 1506-1517): the
pixel extents of the tile padded by `ws_buffer = 0.5`, floored/ceiled and
clipped to the raster. Returns (col_min, col_max, row_min, row_max). -/
def pointPathWindow (d : Driver) (key : TileKey) : ℤ × ℤ × ℤ × ℤ :=
  let ext := key.extent
  let p1 := geoToPixel d ext.xmin ext.ymin
  let p2 := geoToPixel d ext.xmax ext.ymax
  let tile_col_min := p1.1
  let tile_row_max := p1.2
  let tile_col_max := p2.1
  let tile_row_min := p2.2
  (max 0 ⌊tile_col_min - 1/2⌋,
   min ⌈tile_col_max + 1/2⌉ (d.ds.rasterWidth - 1),
   max 0 ⌊tile_row_min - 1/2⌋,
   min ⌈tile_row_max + 1/2⌉ (d.ds.rasterHeight - 1))

/-- The raw `band->RasterIO` request of the point-convention path (lines
1526-1530): integer window, tile-sized Float32 buffer, default nearest
resampling, no floating window. -/
def pointPathRequest (d : Driver) (key : TileKey) (tileSize : ℕ) : ReadRequest :=
  let w := pointPathWindow d key
  let col_min := w.1
  let col_max := w.2.1
  let row_min := w.2.2.1
  let row_max := w.2.2.2
  ⟨0, col_min, row_min, col_max - col_min + 1, row_max - row_min + 1,
   (tileSize : ℤ), (tileSize : ℤ), .Float32, .NearestNeighbour, none⟩

/-- The sampling double loop of the point-convention path (lines
1538-1567): compute the covered buffer extents from the padded window, then
for every output sample derive normalised workspace coordinates (with the
1e-6 snap and the vertical flip) and resolve them through
`getInterpolatedDEMValueWorkspace`, scaled by the linear units. -/
def pointPathFill (d : Driver) (band : Band) (workspace : List ℚ) (key : TileKey)
    (tileSize : ℕ) : Heightfield :=
  let ext := key.extent
  let dx := (ext.xmax - ext.xmin) / ((tileSize : ℚ) - 1)
  let dy := (ext.ymax - ext.ymin) / ((tileSize : ℚ) - 1)
  let w := pointPathWindow d key
  let col_min := w.1
  let col_max := w.2.1
  let row_min := w.2.2.1
  let row_max := w.2.2.2
  let bmin := pixelToGeo d (col_min : ℚ) ((row_max : ℚ) + 1)
  let bmax := pixelToGeo d ((col_max : ℚ) + 1) (row_min : ℚ)
  let buf_xmin := bmin.1
  let buf_ymin := bmin.2
  let buf_xmax := bmax.1
  let buf_ymax := bmax.2
  let hf0 : Heightfield := fun _ _ => NO_DATA_VALUE
  (List.range tileSize).foldl (fun hf (r : ℕ) =>
    let y := ext.ymin + dy * (r : ℚ)
    let v := (y - buf_ymin) / (buf_ymax - buf_ymin)
    let v := if equiv v 0 epsBuf then 0 else v
    (List.range tileSize).foldl (fun hf (c : ℕ) =>
      let x := ext.xmin + dx * (c : ℚ)
      let u := (x - buf_xmin) / (buf_xmax - buf_xmin)
      let u := if equiv u 0 epsBuf then 0 else u
      writeH hf (c : ℤ) (r : ℤ)
        (getInterpolatedDEMValueWorkspace d band u (1 - v) workspace
          (tileSize : ℤ) (tileSize : ℤ) * d.linearUnits)) hf) hf0

/-- The trailing `applyScaleAndOffset(band, hf->data, GDT_Float32,
tileSize, tileSize)` of the point-convention path (lines 1189-1209 and
1570): when the band declares a nontrivial scale/offset, every one of the
tileSize × tileSize samples of the tile buffer is mapped through
`v * scale + offset` (`static_cast<float>` is exact here). -/
def applyScaleAndOffsetHF (band : Band) (hf : Heightfield) (tileSize : ℕ) : Heightfield :=
  if band.scale ≠ 1 ∨ band.offset ≠ 0 then
    fun c r =>
      if 0 ≤ c ∧ c < (tileSize : ℤ) ∧ 0 ≤ r ∧ r < (tileSize : ℤ) then
        hf c r * band.scale + band.offset
      else hf c r
  else hf

/-- Embeds `GDAL::Driver::createHeightfield` after the early-out checks (lines
1472-1573): the slow per-sample area-convention path (which issues many
tiny reads through `getInterpolatedDEMValue` and never fails), or the
point-convention/nearest path (one padded workspace read that aborts the
tile with `ResourceUnavailable` on failure, then the fill loop and the
final scale/offset application). -/
def createHeightfieldBody (d : Driver) (env : Env) (key : TileKey) (tileSize : ℕ) :
    Except StatusCode Heightfield :=
  let ext := key.extent
  let dx := (ext.xmax - ext.xmin) / ((tileSize : ℚ) - 1)
  let dy := (ext.ymax - ext.ymin) / ((tileSize : ℚ) - 1)
  let band := bandAt d.ds 0
  if d.pixelIsArea ∧ d.interpolation ≠ Interpolation.NEAREST then
    let hf0 : Heightfield := fun _ _ => NO_DATA_VALUE
    .ok ((List.range tileSize).foldl (fun hf (r : ℕ) =>
      let y := ext.ymin + dy * (r : ℚ)
      (List.range tileSize).foldl (fun hf (c : ℕ) =>
        let x := ext.xmin + dx * (c : ℚ)
        writeH hf (c : ℤ) (r : ℤ)
          (getInterpolatedDEMValue d env 0 band x y true * d.linearUnits)) hf) hf0)
  else
    match env.read (pointPathRequest d key tileSize) with
    | none => .error .ResourceUnavailable
    | some workspace =>
        .ok (applyScaleAndOffsetHF band (pointPathFill d band workspace key tileSize) tileSize)

/-- Embeds `GDAL::Driver::createHeightfield` (lines 1444-1574): the early
`ResourceUnavailable` exits (level beyond `maxDataLevel`, cancelled
request, empty intersection with the dataset extent) followed by the
sampling body. -/
def createHeightfield (d : Driver) (env : Env) (key : TileKey) (tileSize : ℕ) (canceled : Bool) :
    Except StatusCode Heightfield :=
  if levelExceeded d key then .error .ResourceUnavailable
  else if canceled then .error .ResourceUnavailable
  else if !(intersectionSameSRS key.extent d.extents).valid then .error .ResourceUnavailable
  else createHeightfieldBody d env key tileSize

/-! ## Concrete scenario instances used by witnesses and counterexamples -/

/-- A driver with identity-like geotransform over a 1-by-1 raster and unit
extents, used to instantiate hypotheses at concrete inputs. -/
def sampleDriver : Driver :=
  ⟨⟨0, 1, 0, 0, 0, 1⟩, ⟨0, 1, 0, 0, 0, 1⟩, ⟨1, 1, []⟩, ⟨0, 0, 1, 1⟩, ⟨0, 0, 1, 1⟩,
   false, false, 1, none, .NEAREST, none, none, none⟩

/-- An environment whose reads all fail. -/
def failEnv : Env := ⟨fun _ => none, 5, ⟨0, 0, 0, 0⟩⟩

/-- A tile key whose extent lies entirely outside the extents of `sampleDriver`. -/
def disjointKey : TileKey := ⟨0, ⟨2, 2, 3, 3⟩⟩

/-- A palette band whose single color-table slot is missing. -/
def missingEntryBand : Band := ⟨.Palette, .Byte, none, 1, 0, [none], .RGB⟩

/-- Concrete scenario geotransform: pixel (c, r) maps to geo (c, 2 - r)
over a 2-by-2 raster; it is its own inverse transform. -/
def areaGT : GT := ⟨0, 1, 0, 2, 0, -1⟩

/-- A plain float elevation band with no declared nodata/scale/offset. -/
def elevBand : Band := ⟨.Gray, .Float32, none, 1, 0, [], .Other⟩

/-- An area-convention driver with bilinear interpolation over the 2-by-2
scenario raster. -/
def areaDriver : Driver :=
  ⟨areaGT, areaGT, ⟨2, 2, [elevBand]⟩, ⟨0, 0, 2, 2⟩, ⟨0, 0, 2, 2⟩,
   false, true, 1, none, .BILINEAR, none, none, none⟩

/-- A point-convention driver with nearest interpolation over the same
raster. -/
def pointDriver : Driver :=
  ⟨areaGT, areaGT, ⟨2, 2, [elevBand]⟩, ⟨0, 0, 2, 2⟩, ⟨0, 0, 2, 2⟩,
   false, false, 1, none, .NEAREST, none, none, none⟩

/-- A tile key covering the whole 2-by-2 scenario raster. -/
def fullKey : TileKey := ⟨0, ⟨0, 0, 2, 2⟩⟩

/-- A float elevation band declaring nodata -9999, scale 2 and the
adversarial offset `-NO_DATA_VALUE` (so that sentinel·2 + offset equals
the sentinel again). -/
def scaledBand : Band := ⟨.Gray, .Float32, some (-9999), 2, 2 ^ 128 - 2 ^ 104, [], .Other⟩

/-- A point-convention nearest driver over the 2-by-2 scenario raster
whose single band is `scaledBand`. -/
def scaledDriver : Driver :=
  ⟨areaGT, areaGT, ⟨2, 2, [scaledBand]⟩, ⟨0, 0, 2, 2⟩, ⟨0, 0, 2, 2⟩,
   false, false, 1, none, .NEAREST, none, none, none⟩

/-- An environment whose every read yields a 2-by-2 buffer full of the
band nodata value -9999. -/
def nodataEnv : Env := ⟨fun _ => some (List.replicate 4 (-9999)), 0, ⟨0, 0, 0, 0⟩⟩

/-- Scenario geotransform for a one-pixel raster: pixel (c, r) maps to
geo (c, 1 - r); it is its own inverse transform. -/
def paletteGT : GT := ⟨0, 1, 0, 1, 0, -1⟩

/-- A one-pixel dataset whose single band is the palette band with the
missing color-table entry. -/
def paletteDS : Dataset := ⟨1, 1, [missingEntryBand]⟩

/-- The driver for the palette scenario. -/
def paletteDriver : Driver :=
  ⟨paletteGT, paletteGT, paletteDS, ⟨0, 0, 1, 1⟩, ⟨0, 0, 1, 1⟩,
   false, false, 1, none, .NEAREST, none, none, none⟩

/-- An environment whose every read yields the single palette index 0. -/
def paletteEnv : Env := ⟨fun _ => some [0], 0, ⟨0, 0, 0, 0⟩⟩

/-- A tile key covering the one-pixel raster. -/
def unitKey : TileKey := ⟨0, ⟨0, 0, 1, 1⟩⟩


/-! ## Claim C8: sub-dataset selection -/

/-- Claim C8, counterexample: the claim says an out-of-range configured
sub-dataset index is clamped into [1, N]; for configured index 7 with N = 3
sub-datasets, clamping would select 3, but `open` selects 1. -/
theorem c8_counterexample :
    selectSubDataset (some 7) 3 = 1 ∧ clampI 7 1 3 = 3 ∧ (1 : ℤ) ≠ 3 := by decide

/-- Claim C8 (amended): when the source exposes N ≥ 1 sub-datasets, `open`
selects an index in [1, N]: the configured index when it already lies in
[1, N], and 1 otherwise — both when no index is configured and when the
configured index is out of range (it is reset to 1, not clamped). -/
theorem c8_subdataset_selection (configured : Option ℤ) (n : ℤ) (hn : 1 ≤ n) :
    (1 ≤ selectSubDataset configured n ∧ selectSubDataset configured n ≤ n) ∧
    (∀ s, configured = some s → 1 ≤ s → s ≤ n → selectSubDataset configured n = s) ∧
    (configured = none → selectSubDataset configured n = 1) ∧
    (∀ s, configured = some s → (s < 1 ∨ n < s) → selectSubDataset configured n = 1) := by
  rcases configured with _ | s
  · refine ⟨?_, ?_, ?_, ?_⟩
    · simp only [selectSubDataset]
      split_ifs with h <;> omega
    · intro t ht
      exact Option.noConfusion ht
    · intro _
      simp only [selectSubDataset]
      split_ifs with h <;> omega
    · intro t ht
      exact Option.noConfusion ht
  · refine ⟨?_, ?_, ?_, ?_⟩
    · simp only [selectSubDataset]
      split_ifs with h <;> omega
    · intro t ht h1 h2
      obtain rfl : s = t := Option.some.inj ht
      simp only [selectSubDataset]
      rw [if_neg (by omega)]
    · intro h
      exact Option.noConfusion h
    · intro t ht h12
      obtain rfl : s = t := Option.some.inj ht
      simp only [selectSubDataset]
      rw [if_pos (by omega)]

/-- Claim C8, witness. -/
theorem c8_witness :
    (1 ≤ selectSubDataset (some 2) 3 ∧ selectSubDataset (some 2) 3 ≤ 3) ∧
    (∀ s, (some 2 : Option ℤ) = some s → 1 ≤ s → s ≤ 3 → selectSubDataset (some 2) 3 = s) ∧
    ((some 2 : Option ℤ) = none → selectSubDataset (some 2) 3 = 1) ∧
    (∀ s, (some 2 : Option ℤ) = some s → (s < 1 ∨ 3 < s) → selectSubDataset (some 2) 3 = 1) :=
  c8_subdataset_selection (some 2) 3 (by decide)

/-! ## Claim C9: maxDataLevel fallback for non-positive resolution -/

/-- Claim C9: when `maxDataLevel` is not pre-configured and the computed
per-pixel resolution (the minimum of the x and y resolutions) is not
strictly positive, `open` sets `maxDataLevel` to 1 instead of running the
halving loop. -/
theorem c9_nonpositive_resolution_level_one (w0 h0 tileSize resolutionX resolutionY : ℚ)
    (h : min resolutionX resolutionY ≤ 0) :
    computeMaxDataLevel none w0 h0 tileSize resolutionX resolutionY = 1 := by
  simp only [computeMaxDataLevel]
  rw [if_neg (not_lt.mpr h)]

/-- Claim C9, witness. -/
theorem c9_witness :
    min (0 : ℚ) 0 ≤ 0 ∧ computeMaxDataLevel none 1 1 1 0 0 = 1 :=
  ⟨by norm_num, c9_nonpositive_resolution_level_one 1 1 1 0 0 (by norm_num)⟩

/-! ## Claim C4: geodetic bounds clamping -/

/-- Claim C4, counterexample: the claim asserts that declared bounds
xmin = -190, xmax = 190 (area convention, geodetic SRS) are clamped to
[-180, 180] with the clamped flag set; but for a 10-pixel-wide source
(resolutionX = 380/10 = 38), the half-pixel shrink alone brings the span
to 342 ≤ 360, so `open` reports [-171, 171] and never sets the flag. -/
theorem c4_counterexample :
    (clampGeodeticBounds ⟨-190, -90, 190, 90⟩ 38 18 true true).2 = false ∧
    (clampGeodeticBounds ⟨-190, -90, 190, 90⟩ 38 18 true true).1.xmin = -171 ∧
    (clampGeodeticBounds ⟨-190, -90, 190, 90⟩ 38 18 true true).1.xmax = 171 ∧
    (-171 : ℚ) ≠ -180 := by
  norm_num [clampGeodeticBounds]

/-- Claim C4 (amended): for a geodetic, area-convention dataset with
declared bounds xmin = -190, xmax = 190, provided the source x
resolution is below 20 degrees per pixel (so the half-pixel shrink leaves
the x-span above 360), `open` clamps the reported x-bounds to [-180, 180]
and sets the clamped flag; for coarser sources the shrink alone brings the
span within 360 and neither the clamp nor the flag occurs. -/
theorem c4_clamped_given_fine_resolution (ymin ymax resolutionX resolutionY : ℚ)
    (hres : resolutionX < 20) :
    (clampGeodeticBounds ⟨-190, ymin, 190, ymax⟩ resolutionX resolutionY true true).1.xmin = -180 ∧
    (clampGeodeticBounds ⟨-190, ymin, 190, ymax⟩ resolutionX resolutionY true true).1.xmax = 180 ∧
    (clampGeodeticBounds ⟨-190, ymin, 190, ymax⟩ resolutionX resolutionY true true).2 = true := by
  have hb1 : ((true : Bool) : Prop) ∧ ((-190 : ℚ) < -180 ∨ (190 : ℚ) > 180) := by
    norm_num
  have hspan : (190 : ℚ) - resolutionX * (1/2) - (-190 + resolutionX * (1/2)) > 360 := by
    linarith
  simp only [clampGeodeticBounds, if_pos hb1]
  split_ifs with h1 h2 h3 h4 h5 h6 h7 <;> simp_all

/-- Claim C4, witness. -/
theorem c4_witness :
    (1 : ℚ) < 20 ∧
    ((clampGeodeticBounds ⟨-190, -90, 190, 90⟩ 1 1 true true).1.xmin = -180 ∧
     (clampGeodeticBounds ⟨-190, -90, 190, 90⟩ 1 1 true true).1.xmax = 180 ∧
     (clampGeodeticBounds ⟨-190, -90, 190, 90⟩ 1 1 true true).2 = true) :=
  ⟨by norm_num, c4_clamped_given_fine_resolution (-90) 90 1 1 (by norm_num)⟩

/-! ## Claim C7: the maxDataLevel halving loop -/

lemma div_two_pow_succ (w : ℚ) (j : ℕ) : w / 2 ^ (j + 1) = w / 2 / 2 ^ j := by
  rw [div_div, ← pow_succ']

/-- The fuel `computeMaxDataLevel` passes to `maxLevelLoop` dominates the
iteration count of the C++ while loop: after that many halvings `w` is
below the resolution. -/
lemma levelFuel_adequate (w maxResolution : ℚ) (hr : 0 < maxResolution) :
    w / 2 ^ levelFuel w maxResolution < maxResolution := by
  rcases le_or_lt w 0 with hw | hw
  · calc w / 2 ^ levelFuel w maxResolution ≤ 0 :=
        div_nonpos_of_nonpos_of_nonneg hw (by positivity)
      _ < maxResolution := hr
  · rw [div_lt_iff₀ (by positivity), mul_comm]
    have key : w / maxResolution < 2 ^ levelFuel w maxResolution := by
      calc w / maxResolution ≤ ⌈w / maxResolution⌉ := Int.le_ceil _
        _ ≤ ((⌈w / maxResolution⌉.toNat : ℚ)) := by exact_mod_cast Int.self_le_toNat _
        _ < 2 ^ (⌈w / maxResolution⌉.toNat) := by exact_mod_cast Nat.lt_two_pow _
        _ ≤ 2 ^ levelFuel w maxResolution := by
            exact pow_le_pow_right₀ (by norm_num) (Nat.le_succ _)
    calc w = (w / maxResolution) * maxResolution := by field_simp
      _ < 2 ^ levelFuel w maxResolution * maxResolution :=
        mul_lt_mul_of_pos_right key hr

/-- Semantics of the `while (w >= maxResolution && h >= maxResolution)`
loop, for any fuel that covers every iteration: the loop condition holds at
every level below the result and fails at the result. -/
lemma maxLevelLoop_spec (fuel : ℕ) (w h maxResolution : ℚ)
    (hfuel : w / 2 ^ fuel < maxResolution) :
    (∀ j < maxLevelLoop fuel w h maxResolution,
        maxResolution ≤ w / 2 ^ j ∧ maxResolution ≤ h / 2 ^ j) ∧
    ¬(maxResolution ≤ w / 2 ^ maxLevelLoop fuel w h maxResolution ∧
      maxResolution ≤ h / 2 ^ maxLevelLoop fuel w h maxResolution) := by
  induction fuel generalizing w h with
  | zero =>
      simp only [maxLevelLoop]
      constructor
      · intro j hj
        exact absurd hj (Nat.not_lt_zero j)
      · rintro ⟨h1, -⟩
        rw [pow_zero, div_one] at h1 hfuel
        exact absurd h1 (not_le.mpr hfuel)
  | succ fuel ih =>
      simp only [maxLevelLoop]
      split_ifs with hcond
      · have hfuel2 : w / 2 / 2 ^ fuel < maxResolution := by
          rw [← div_two_pow_succ]
          exact hfuel
        obtain ⟨ih1, ih2⟩ := ih (w / 2) (h / 2) hfuel2
        constructor
        · intro j hj
          cases j with
          | zero => simpa using hcond
          | succ j =>
              obtain ⟨e1, e2⟩ := ih1 j (by omega)
              exact ⟨by rw [div_two_pow_succ]; exact e1, by rw [div_two_pow_succ]; exact e2⟩
        · rintro ⟨h1, h2⟩
          exact ih2 ⟨by rw [← div_two_pow_succ]; exact h1, by rw [← div_two_pow_succ]; exact h2⟩
      · constructor
        · intro j hj
          exact absurd hj (Nat.not_lt_zero j)
        · rintro ⟨h1, h2⟩
          rw [pow_zero, div_one] at h1 h2
          exact hcond ⟨h1, h2⟩

/-- Claim C7: when not pre-configured, `maxDataLevel` is the result of
starting at level 0 with the profile level-0 per-tile dimensions divided
by the tile size and repeatedly halving them, incrementing the level while
both dimensions still equal or exceed the per-pixel resolution of the source
(the minimum of the two axis resolutions): at every level below the result
both halved dimensions are at least the resolution, and at the result the
condition fails — it is the finest level reached. -/
theorem c7_maxDataLevel_halving_loop (w0 h0 tileSize resolutionX resolutionY : ℚ) (L : ℕ)
    (hr : 0 < min resolutionX resolutionY)
    (hL : L = computeMaxDataLevel none w0 h0 tileSize resolutionX resolutionY) :
    (∀ j < L, min resolutionX resolutionY ≤ w0 / tileSize / 2 ^ j ∧
              min resolutionX resolutionY ≤ h0 / tileSize / 2 ^ j) ∧
    ¬(min resolutionX resolutionY ≤ w0 / tileSize / 2 ^ L ∧
      min resolutionX resolutionY ≤ h0 / tileSize / 2 ^ L) := by
  have hL2 : L = maxLevelLoop (levelFuel (w0 / tileSize) (min resolutionX resolutionY))
      (w0 / tileSize) (h0 / tileSize) (min resolutionX resolutionY) := by
    rw [hL]
    simp only [computeMaxDataLevel]
    rw [if_pos hr]
  rw [hL2]
  exact maxLevelLoop_spec _ _ _ _ (levelFuel_adequate _ _ hr)

/-- Claim C7, witness: a source of resolution 1 under a 4-by-4-unit level-0
tile with tile size 1 supports levels 0, 1, 2 and stops incrementing at 3. -/
theorem c7_witness :
    (0 : ℚ) < min 1 1 ∧
    ((∀ j < computeMaxDataLevel none 4 4 1 1 1, min (1 : ℚ) 1 ≤ 4 / 1 / 2 ^ j ∧
        min (1 : ℚ) 1 ≤ 4 / 1 / 2 ^ j) ∧
     ¬(min (1 : ℚ) 1 ≤ 4 / 1 / 2 ^ computeMaxDataLevel none 4 4 1 1 1 ∧
       min (1 : ℚ) 1 ≤ 4 / 1 / 2 ^ computeMaxDataLevel none 4 4 1 1 1)) :=
  ⟨by norm_num,
   c7_maxDataLevel_halving_loop 4 4 1 1 1 (computeMaxDataLevel none 4 4 1 1 1)
     (by norm_num) rfl⟩

/-! ## Claim C2: empty intersection yields ResourceUnavailable -/

/-- Claim C2: for every tile key whose extent does not intersect the
dataset extent (the computed intersection is empty), both `createImage`
and `createHeightfield` return `ResourceUnavailable` and produce no tile
(the earlier level/cancellation exits also return `ResourceUnavailable`,
so no hypothesis about them is needed). -/
theorem c2_no_intersection_unavailable (d : Driver) (env : Env) (key : TileKey)
    (tileSize : ℕ) (canceled : Bool)
    (hint : (intersectionSameSRS key.extent d.extents).valid = false) :
    createImage d env key tileSize canceled = .error .ResourceUnavailable ∧
    createHeightfield d env key tileSize canceled = .error .ResourceUnavailable := by
  constructor
  · simp only [createImage]
    split_ifs with h1 h2 h3
    · rfl
    · rfl
    · rfl
    · simp [hint] at h3
  · simp only [createHeightfield]
    split_ifs with h1 h2 h3
    · rfl
    · rfl
    · rfl
    · simp [hint] at h3

/-- Claim C2, witness. -/
theorem c2_witness :
    createImage sampleDriver failEnv disjointKey 4 false = .error .ResourceUnavailable ∧
    createHeightfield sampleDriver failEnv disjointKey 4 false = .error .ResourceUnavailable :=
  c2_no_intersection_unavailable sampleDriver failEnv disjointKey 4 false (by decide)

/-! ## Claim C6: missing palette entry -/

/-- Claim C6 (amended): when the color table of a palette band has no entry
for a sampled index, the per-pixel palette step of the compositor resolves the
output pixel to transparent red — `getPalleteIndexColor` fills (255, 0, 0)
with alpha 1 and reports failure, and `createImage` then forces alpha to
0 — and no failure is raised for the tile. -/
theorem c6_missing_palette_entry_transparent_red (d : Driver) (band : Band) (p : ℕ)
    (init : Pix8) (h : band.colorTable.getD p none = none) :
    palettePixel d band p init = ⟨1, 0, 0, 0⟩ := by
  simp only [palettePixel, getPalleteIndexColor, h]
  norm_num

/-- Claim C6, witness. -/
theorem c6_witness :
    missingEntryBand.colorTable.getD 0 none = none ∧
    palettePixel sampleDriver missingEntryBand 0 ⟨0, 0, 0, 0⟩ = ⟨1, 0, 0, 0⟩ :=
  ⟨rfl, c6_missing_palette_entry_transparent_red sampleDriver missingEntryBand 0 ⟨0, 0, 0, 0⟩ rfl⟩

/-! ## Claim C5: AVERAGE image reads are BILINEAR reads -/

/-- Claim C5: `detail::rasterIO` maps both the AVERAGE and the BILINEAR
interpolation configurations to the bilinear resampling algorithm, so for
every image-tile request the two configurations issue identical reads and
produce identical image tiles. -/
theorem c5_average_is_bilinear (d : Driver) (env : Env) (key : TileKey) (tileSize : ℕ)
    (canceled : Bool) :
    resampleAlgOf .AVERAGE = ResampleAlg.Bilinear ∧
    resampleAlgOf .BILINEAR = ResampleAlg.Bilinear ∧
    createImage { d with interpolation := .AVERAGE } env key tileSize canceled
      = createImage { d with interpolation := .BILINEAR } env key tileSize canceled :=
  ⟨rfl, rfl, rfl⟩

/-! ## Claim C1: the transform round trip -/

/-- The two sequential edge snaps move a coordinate by at most epsQ, for
any raster dimension of at least one pixel. -/
lemma snapPipe_close (v s : ℚ) (hs : 1 ≤ s) : |snapPipe v s - v| ≤ epsQ := by
  have heps : (0 : ℚ) ≤ epsQ := by norm_num [epsQ]
  simp only [snapPipe, equiv, decide_eq_true_eq]
  split_ifs with h1 h2 h3
  · exfalso
    rw [zero_sub, abs_neg] at h2
    have hse : s ≤ epsQ := le_trans (le_abs_self s) h2
    have : (1 : ℚ) ≤ epsQ := le_trans hs hse
    norm_num [epsQ] at this
  · rw [zero_sub, abs_neg]
    rw [sub_zero] at h1
    exact h1
  · rw [abs_sub_comm]
    exact h3
  · simp [heps]

/-- The inverse `open` computes with `GDALInvGeoTransform` is an exact left
inverse of the geotransform on both coordinates. -/
lemma invGeoTransform_left_inverse (g gi : GT) (hinv : invGeoTransform g = some gi)
    (x y : ℚ) :
    gi.g0 + gi.g1 * (g.g0 + g.g1 * x + g.g2 * y) + gi.g2 * (g.g3 + g.g4 * x + g.g5 * y) = x ∧
    gi.g3 + gi.g4 * (g.g0 + g.g1 * x + g.g2 * y) + gi.g5 * (g.g3 + g.g4 * x + g.g5 * y) = y := by
  unfold invGeoTransform at hinv
  split_ifs at hinv with hdet
  have hd : g.g1 * g.g5 - g.g2 * g.g4 ≠ 0 := by
    simpa [GT.det] using hdet
  obtain rfl := Option.some.inj hinv
  constructor <;>
  · simp only [GT.det]
    field_simp
    ring

/-- Claim C1: for every pixel coordinate inside the raster bounds (with at
least a one-pixel raster and the inverse computed at open from a
nonsingular geotransform), `geoToPixel (pixelToGeo (x, y))` reproduces
(x, y) within 1e-4 on each axis: the affine round trip is exact and the
edge snapping moves a coordinate by at most the 1e-4 tolerance. -/
theorem c1_transform_roundtrip (d : Driver) (x y : ℚ)
    (hinv : invGeoTransform d.geotransform = some d.invtransform)
    (hW : 1 ≤ d.ds.rasterWidth) (hH : 1 ≤ d.ds.rasterHeight)
    (_hx0 : 0 ≤ x) (_hx1 : x ≤ (d.ds.rasterWidth : ℚ))
    (_hy0 : 0 ≤ y) (_hy1 : y ≤ (d.ds.rasterHeight : ℚ)) :
    |(geoToPixel d (pixelToGeo d x y).1 (pixelToGeo d x y).2).1 - x| ≤ epsQ ∧
    |(geoToPixel d (pixelToGeo d x y).1 (pixelToGeo d x y).2).2 - y| ≤ epsQ := by
  obtain ⟨hid1, hid2⟩ := invGeoTransform_left_inverse d.geotransform d.invtransform hinv x y
  have hW1 : (1 : ℚ) ≤ (d.ds.rasterWidth : ℚ) := by exact_mod_cast hW
  have hH1 : (1 : ℚ) ≤ (d.ds.rasterHeight : ℚ) := by exact_mod_cast hH
  constructor
  · have e : (geoToPixel d (pixelToGeo d x y).1 (pixelToGeo d x y).2).1
        = snapPipe x (d.ds.rasterWidth : ℚ) := by
      simp only [geoToPixel, pixelToGeo]
      rw [hid1]
    rw [e]
    exact snapPipe_close x _ hW1
  · have e : (geoToPixel d (pixelToGeo d x y).1 (pixelToGeo d x y).2).2
        = snapPipe y (d.ds.rasterHeight : ℚ) := by
      simp only [geoToPixel, pixelToGeo]
      rw [hid2]
    rw [e]
    exact snapPipe_close y _ hH1

/-- Claim C1, witness. -/
theorem c1_witness :
    |(geoToPixel sampleDriver (pixelToGeo sampleDriver 1 1).1
        (pixelToGeo sampleDriver 1 1).2).1 - 1| ≤ epsQ ∧
    |(geoToPixel sampleDriver (pixelToGeo sampleDriver 1 1).1
        (pixelToGeo sampleDriver 1 1).2).2 - 1| ≤ epsQ :=
  c1_transform_roundtrip sampleDriver 1 1
    (by norm_num [invGeoTransform, GT.det, sampleDriver])
    (by norm_num [sampleDriver]) (by norm_num [sampleDriver]) (by norm_num)
    (by norm_num [sampleDriver]) (by norm_num) (by norm_num [sampleDriver])

/-! ## Claims C3 and C10: heightfield error handling and scale/offset -/

/-- Running the point-convention/nearest path to completion: when the
early exits do not fire and the single workspace read succeeds,
`createHeightfield` returns the filled tile with the band scale/offset
applied as the final step. -/
lemma pointPath_run (d : Driver) (env : Env) (key : TileKey) (tileSize : ℕ) (ws : List ℚ)
    (hlvl : levelExceeded d key = false)
    (hint : (intersectionSameSRS key.extent d.extents).valid = true)
    (hpath : ¬(d.pixelIsArea = true ∧ d.interpolation ≠ Interpolation.NEAREST))
    (hread : env.read (pointPathRequest d key tileSize) = some ws) :
    createHeightfield d env key tileSize false
      = .ok (applyScaleAndOffsetHF (bandAt d.ds 0)
          (pointPathFill d (bandAt d.ds 0) ws key tileSize) tileSize) := by
  unfold createHeightfield
  rw [hlvl]
  rw [if_neg Bool.false_ne_true]
  rw [if_neg Bool.false_ne_true]
  rw [hint]
  simp only [Bool.not_true]
  rw [if_neg Bool.false_ne_true]
  simp only [createHeightfieldBody]
  rw [if_neg hpath, hread]

/-- Claim C3 (amended, point path): in the point-convention/nearest path,
when the early exits do not fire and the single padded workspace read
fails, `createHeightfield` returns `ResourceUnavailable` for the whole
tile. (In the area-convention interpolated path read failures are ignored;
see the counterexample.) -/
theorem c3_point_path_read_failure_unavailable (d : Driver) (env : Env) (key : TileKey)
    (tileSize : ℕ)
    (hlvl : levelExceeded d key = false)
    (hint : (intersectionSameSRS key.extent d.extents).valid = true)
    (hpath : ¬(d.pixelIsArea = true ∧ d.interpolation ≠ Interpolation.NEAREST))
    (hread : env.read (pointPathRequest d key tileSize) = none) :
    createHeightfield d env key tileSize false = .error .ResourceUnavailable := by
  unfold createHeightfield
  rw [hlvl]
  rw [if_neg Bool.false_ne_true]
  rw [if_neg Bool.false_ne_true]
  rw [hint]
  simp only [Bool.not_true]
  rw [if_neg Bool.false_ne_true]
  simp only [createHeightfieldBody]
  rw [if_neg hpath, hread]

/-- Claim C3, witness. -/
theorem c3_witness :
    createHeightfield pointDriver failEnv fullKey 2 false = .error .ResourceUnavailable :=
  c3_point_path_read_failure_unavailable pointDriver failEnv fullKey 2 rfl (by decide)
    (by decide) rfl

/-- Claim C3, counterexample: in the area-convention interpolated path the
per-corner `detail::rasterIO` return values are ignored, so with every
source read failing (`failEnv`), `createHeightfield` still returns the
tile as a success instead of `ResourceUnavailable`. -/
theorem c3_counterexample :
    heightfieldOk (createHeightfield areaDriver failEnv fullKey 2 false) = true ∧
    failEnv.read (pointPathRequest areaDriver fullKey 2) = none := by
  exact ⟨rfl, rfl⟩

/-- Claim C10 (amended): in the point-convention/nearest path, when the
early exits do not fire and the workspace read succeeds, the declared
band scale and offset are applied exactly once, after all sampling,
uniformly to every one of the tileSize-by-tileSize output samples —
including samples set to the nodata sentinel — so an invalid sample in the
returned tile equals `NO_DATA_VALUE * scale + offset`, which differs from
the sentinel whenever `NO_DATA_VALUE * scale + offset ≠ NO_DATA_VALUE`
(true for generic nontrivial scale/offset, but not for the special pairs
with `offset = NO_DATA_VALUE * (1 - scale)`; see the counterexample). -/
theorem c10_scale_offset_after_sampling (d : Driver) (env : Env) (key : TileKey)
    (tileSize : ℕ) (ws : List ℚ)
    (hlvl : levelExceeded d key = false)
    (hint : (intersectionSameSRS key.extent d.extents).valid = true)
    (hpath : ¬(d.pixelIsArea = true ∧ d.interpolation ≠ Interpolation.NEAREST))
    (hread : env.read (pointPathRequest d key tileSize) = some ws)
    (hscale : (bandAt d.ds 0).scale ≠ 1 ∨ (bandAt d.ds 0).offset ≠ 0) :
    createHeightfield d env key tileSize false
      = .ok (applyScaleAndOffsetHF (bandAt d.ds 0)
          (pointPathFill d (bandAt d.ds 0) ws key tileSize) tileSize) ∧
    (∀ c r, 0 ≤ c → c < (tileSize : ℤ) → 0 ≤ r → r < (tileSize : ℤ) →
      applyScaleAndOffsetHF (bandAt d.ds 0) (pointPathFill d (bandAt d.ds 0) ws key tileSize)
          tileSize c r
        = pointPathFill d (bandAt d.ds 0) ws key tileSize c r * (bandAt d.ds 0).scale
            + (bandAt d.ds 0).offset) ∧
    (∀ c r, 0 ≤ c → c < (tileSize : ℤ) → 0 ≤ r → r < (tileSize : ℤ) →
      pointPathFill d (bandAt d.ds 0) ws key tileSize c r = NO_DATA_VALUE →
      NO_DATA_VALUE * (bandAt d.ds 0).scale + (bandAt d.ds 0).offset ≠ NO_DATA_VALUE →
      applyScaleAndOffsetHF (bandAt d.ds 0) (pointPathFill d (bandAt d.ds 0) ws key tileSize)
          tileSize c r ≠ NO_DATA_VALUE) := by
  have happ : ∀ c r, 0 ≤ c → c < (tileSize : ℤ) → 0 ≤ r → r < (tileSize : ℤ) →
      applyScaleAndOffsetHF (bandAt d.ds 0) (pointPathFill d (bandAt d.ds 0) ws key tileSize)
          tileSize c r
        = pointPathFill d (bandAt d.ds 0) ws key tileSize c r * (bandAt d.ds 0).scale
            + (bandAt d.ds 0).offset := by
    intro c r hc0 hc1 hr0 hr1
    rw [applyScaleAndOffsetHF, if_pos hscale]
    exact if_pos ⟨hc0, hc1, hr0, hr1⟩
  refine ⟨pointPath_run d env key tileSize ws hlvl hint hpath hread, happ, ?_⟩
  intro c r hc0 hc1 hr0 hr1 hnd hne
  rw [happ c r hc0 hc1 hr0 hr1, hnd]
  exact hne

/-- Claim C10, witness. -/
theorem c10_witness :
    createHeightfield scaledDriver nodataEnv fullKey 2 false
      = .ok (applyScaleAndOffsetHF (bandAt scaledDriver.ds 0)
          (pointPathFill scaledDriver (bandAt scaledDriver.ds 0) (List.replicate 4 (-9999))
            fullKey 2) 2) :=
  (c10_scale_offset_after_sampling scaledDriver nodataEnv fullKey 2 (List.replicate 4 (-9999))
    rfl (by decide) (by decide) rfl (Or.inl (by norm_num [bandAt, scaledDriver, scaledBand]))).1

/-- The point-path window of the C10 scenario. -/
lemma pointPathWindow_scaled : pointPathWindow scaledDriver fullKey = (0, 1, 0, 1) := by
  norm_num [pointPathWindow, scaledDriver, fullKey, areaGT, geoToPixel, snapPipe, equiv, epsQ]

set_option maxHeartbeats 2000000 in
/-- In the C10 scenario, the sample at (0, 0) of the pre-scale fill stage
is the nodata sentinel (the read delivered the band nodata value). -/
lemma pointPathFill_scaled_sample :
    pointPathFill scaledDriver scaledBand (List.replicate 4 (-9999)) fullKey 2 0 0
      = NO_DATA_VALUE := by
  have hr2 : List.range 2 = [0, 1] := rfl
  have hrep : List.replicate 4 (-9999 : ℚ) = [-9999, -9999, -9999, -9999] := rfl
  have hgd2 : List.getD [(-9999 : ℚ), -9999, -9999, -9999] 2 0 = -9999 := rfl
  have hext : fullKey.extent = ⟨0, 0, 2, 2⟩ := rfl
  have hlu : scaledDriver.linearUnits = 1 := rfl
  have hbmin : pixelToGeo scaledDriver 0 2 = (0, 0) := by
    norm_num [pixelToGeo, scaledDriver, areaGT]
  have hbmax : pixelToGeo scaledDriver 2 0 = (2, 2) := by
    norm_num [pixelToGeo, scaledDriver, areaGT]
  have hival : getInterpolatedDEMValueWorkspace scaledDriver scaledBand 0 1
      [(-9999 : ℚ), -9999, -9999, -9999] 2 2 = NO_DATA_VALUE := by
    have hI : scaledDriver.interpolation = Interpolation.NEAREST := rfl
    have hton : (2 : ℤ).toNat = 2 := rfl
    norm_num only [getInterpolatedDEMValueWorkspace, hI, scaledBand, bandNoDataOr, clampQ,
      clampI, truncI, min_def, max_def, isValidValueND, belowMinValid, aboveMaxValid,
      hgd2, hton, Int.floor_zero, Int.floor_one, Int.ceil_zero, Int.ceil_one,
      Bool.not_false, Bool.not_true, decide_eq_true_eq, ite_true, ite_false,
      zero_mul, one_mul, mul_one, mul_zero, add_zero, zero_add, sub_zero]
  norm_num only [pointPathFill, pointPathWindow_scaled, hr2, hrep, hext, hlu, hbmin, hbmax,
    hival, List.foldl_cons, List.foldl_nil, writeH, equiv, epsBuf, decide_eq_true_eq,
    Nat.cast_ofNat, Nat.cast_zero, Nat.cast_one, Int.cast_zero, Int.cast_one, Int.cast_ofNat,
    mul_zero, zero_mul, add_zero, zero_add, sub_zero, zero_sub, sub_self, abs_zero, zero_div,
    mul_one, one_mul, ite_true, ite_false, and_true, true_and, and_false, false_and]

/-- Claim C10, counterexample: with scale 2 and offset `-NO_DATA_VALUE`
(a nontrivial configuration, scale ≠ 1), the invalid sample at (0, 0) of
the returned tile still equals the nodata sentinel: the uniform
scale/offset application maps the sentinel back onto itself. -/
theorem c10_counterexample :
    scaledBand.scale ≠ 1 ∧
    (createHeightfield scaledDriver nodataEnv fullKey 2 false).toOption.map (fun hf => hf 0 0)
      = some NO_DATA_VALUE := by
  refine ⟨by norm_num [scaledBand], ?_⟩
  rw [pointPath_run scaledDriver nodataEnv fullKey 2 (List.replicate 4 (-9999)) rfl (by decide)
    (by decide) rfl]
  have hband : bandAt scaledDriver.ds 0 = scaledBand := rfl
  rw [hband]
  simp only [Except.toOption, Option.map]
  have happ : applyScaleAndOffsetHF scaledBand
      (pointPathFill scaledDriver scaledBand (List.replicate 4 (-9999)) fullKey 2) 2 0 0
      = pointPathFill scaledDriver scaledBand (List.replicate 4 (-9999)) fullKey 2 0 0 * 2
          + (2 ^ 128 - 2 ^ 104) := by
    norm_num only [applyScaleAndOffsetHF, scaledBand, Nat.cast_ofNat, ite_true, ite_false,
      if_true, if_false, true_or, or_true, and_self, le_refl]
  rw [happ, pointPathFill_scaled_sample]
  norm_num [NO_DATA_VALUE]

/-- When the level/cancellation/intersection early exits do not fire,
`createImage` proceeds into its compositing body. -/
lemma createImage_passes_checks (d : Driver) (env : Env) (key : TileKey) (tileSize : ℕ)
    (hlvl : levelExceeded d key = false)
    (hint : (intersectionSameSRS key.extent d.extents).valid = true) :
    createImage d env key tileSize false = createImageBody d env key tileSize := by
  unfold createImage
  rw [hlvl]
  rw [if_neg Bool.false_ne_true]
  rw [if_neg Bool.false_ne_true]
  rw [hint]
  simp only [Bool.not_true]
  rw [if_neg Bool.false_ne_true]

set_option maxHeartbeats 2000000 in
/-- Claim C6, counterexample: a full palette-path `createImage` run over a
one-pixel raster whose color table lacks the sampled entry produces the
tile successfully (no failure raised), and the output pixel is the
transparent red (1, 0, 0, 0) — not the opaque red (1, 0, 0, 1) the claim
asserts. -/
theorem c6_counterexample :
    (createImage paletteDriver paletteEnv unitKey 1 false).toOption.map (fun img => img 0 0)
      = some ⟨1, 0, 0, 0⟩ ∧ (⟨1, 0, 0, 0⟩ : Pix) ≠ ⟨1, 0, 0, 1⟩ := by
  refine ⟨?_, by decide⟩
  rw [createImage_passes_checks paletteDriver paletteEnv unitKey 1 rfl (by decide)]
  have hfr : findBandByColorInterp paletteDS .Red = none := rfl
  have hfg : findBandByColorInterp paletteDS .Green = none := rfl
  have hfb : findBandByColorInterp paletteDS .Blue = none := rfl
  have hfa : findBandByColorInterp paletteDS .Alpha = none := rfl
  have hfm : findBandByColorInterp paletteDS .Gray = none := rfl
  have hfp : findBandByColorInterp paletteDS .Palette = some 0 := rfl
  have hband : bandAt paletteDS 0 = missingEntryBand := rfl
  have hdw : paletteDS.rasterWidth = 1 := rfl
  have hdh : paletteDS.rasterHeight = 1 := rfl
  have hds : paletteDriver.ds = paletteDS := rfl
  have hext2 : paletteDriver.extents = ⟨0, 0, 1, 1⟩ := rfl
  have hgeo : paletteDriver.extentsGeodetic = false := rfl
  have hinv2 : paletteDriver.invtransform = paletteGT := rfl
  have hke : unitKey.extent = ⟨0, 0, 1, 1⟩ := rfl
  have hrd : ∀ req, paletteEnv.read req = some [0] := fun _ => rfl
  have hsc : missingEntryBand.scale = 1 := rfl
  have hof : missingEntryBand.offset = 0 := rfl
  have hr1 : List.range 1 = [0] := rfl
  have hrep1 : List.replicate 1 (0 : ℚ) = [0] := rfl
  have hgd : List.getD [(0 : ℚ)] 0 0 = 0 := rfl
  have hton : (0 : ℤ).toNat = 0 := rfl
  have hton1 : (1 : ℤ).toNat = 1 := rfl
  have hpx : palettePixel paletteDriver missingEntryBand 0 paletteEnv.junkPix8
      = ⟨1, 0, 0, 0⟩ := by
    norm_num [palettePixel, getPalleteIndexColor, missingEntryBand]
  norm_num only [createImageBody, paletteGT, hfr, hfg,
    hfb, hfa, hfm, hfp, hband, hdw, hdh, hds, hext2, hgeo, hinv2, hke, hrd, hsc, hof,
    hr1, hrep1, hgd, hton, hton1, hpx, intersectionSameSRS,
    Box.width, Box.height, abs_one, abs_neg,
    geoToPixel, snapPipe, equiv, epsQ, rasterIOModel, resampleAlgOf, truncI, castOfType,
    compositeLoop, writePix, Except.toOption, Option.map,
    min_def, max_def, List.foldl_cons, List.foldl_nil,
    Int.floor_zero, Int.floor_one, Int.ceil_zero, Int.ceil_one, Int.toNat_ofNat,
    Option.isNone_some, Option.isNone_none, Bool.and_false, Bool.and_true, Bool.false_and,
    Bool.true_and, Bool.false_eq_true, Bool.not_false, Bool.not_true, decide_eq_true_eq,
    Nat.cast_ofNat, Nat.cast_zero, Nat.cast_one, Int.cast_zero, Int.cast_one, Int.cast_ofNat,
    mul_zero, zero_mul, add_zero, zero_add, sub_zero, zero_sub, sub_self, abs_zero, zero_div,
    div_one, mul_one, one_mul, ite_true, ite_false, if_true, if_false, and_true, true_and,
    and_false, false_and, true_or, or_true, or_false, false_or, or_self, and_self, le_refl,
    ne_eq, not_true, not_false_iff]

end RockyGDAL
